import Mathlib

/-!
Shallow embedding of `src/evgflip/find_flips.py` (project evgflip): flip
detection over a sliding window of three consecutive CI versions.

The data model (`Task`, `Build`, `Version`) mirrors the read-only snapshots
this code receives from the external Evergreen API client.  Python `dict`s
are embedded as association lists (`List (String × _)`); lookups built by
dict comprehensions resolve duplicate keys last-write-wins, so `dictGet`
returns the value of the last matching binding.  Exceptions raised by the
external client propagate unguarded through this code, which is embedded by
returning `Option` and propagating `none`.  The thread pool in `find`
schedules all work items before awaiting any result and collects results in
scheduling order, so its effect on the value computed is that of a
sequential traversal in window order, which is how `find` is embedded here.
-/

namespace EvgFlip

/-- Task snapshot from the external API: display name, activation flag and
status, plus the result of the external status predicate.  The spec describes
the consumed interface as `Task.display_name`, `Task.activated` (boolean),
`Task.status` (comparable value) and `Task.is_success() -> boolean`; the code
under analysis only reads these four, so `is_success` is embedded as an
independent boolean field of the snapshot. -/
structure Task where
  display_name : String
  activated : Bool
  status : String
  is_success : Bool
deriving Repr, DecidableEq

/-- Build snapshot: display name, build-variant name, and its tasks
(`Build.get_tasks` returns them). -/
structure Build where
  display_name : String
  build_variant : String
  tasks : List Task
deriving Repr, DecidableEq

/-- Version snapshot: revision identifier, creation timestamp (embedded as an
integer, only compared with `<`), and its builds. -/
structure Version where
  revision : String
  create_time : Int
  builds : List Build
deriving Repr, DecidableEq

def Build.get_tasks (b : Build) : List Task := b.tasks

def Version.get_builds (v : Version) : List Build := v.builds

/-- Modelled from the spec: `Version.build_by_variant(name) -> Build` is part
of the consumed external interface (the Evergreen client), not of `src/`.  It
looks the build up by build-variant name; when no build of that variant
exists the lookup fails, embedded as `none` (the Python client raises, and
the code under analysis calls it unguarded). -/
def Version.build_by_variant (v : Version) (name : String) : Option Build :=
  v.builds.find? (fun b => b.build_variant == name)

/-- Python truthiness for the value types this program filters on. -/
class PyTruthy (α : Type) where
  truthy : α → Bool

def pyTruthy {α : Type} [PyTruthy α] (x : α) : Bool := PyTruthy.truthy x

/-- Python lists and dicts (as association lists) are truthy iff non-empty. -/
instance {α : Type} : PyTruthy (List α) := ⟨fun l => !l.isEmpty⟩

/-- Generic Python values, for stating the dictionary-filter property over
heterogeneous dictionaries: strings, sequences, mappings and sets. -/
inductive PyVal where
  | str : String → PyVal
  | list : List PyVal → PyVal
  | dict : List (String × PyVal) → PyVal
  | set : List PyVal → PyVal

/-- Python truthiness on `PyVal`: empty strings, sequences, mappings and sets
are falsy, everything else truthy. -/
def PyVal.truthy : PyVal → Bool
  | .str s => !(s == "")
  | .list xs => !xs.isEmpty
  | .dict xs => !xs.isEmpty
  | .set xs => !xs.isEmpty

instance : PyTruthy PyVal := ⟨PyVal.truthy⟩

/-- `_filter_empty_values(d)`: keep the items of `d` whose value is truthy
(`{k: v for k, v in d.items() if v}`). -/
def _filter_empty_values {α : Type} [PyTruthy α] (d : List (String × α)) :
    List (String × α) :=
  d.filter (fun p => pyTruthy p.2)

/-- Python `s.startswith(pre)`, embedded over the character sequences of the
two strings. -/
def strStartsWith (s pre : String) : Bool :=
  s.data.take pre.data.length == pre.data

/-- `_filter_builds(build)`: returns `True` exactly when the build's display
name starts with `"!"` (this is the literal code; its caller keeps the builds
for which it returns `True`). -/
def _filter_builds (build : Build) : Bool :=
  if strStartsWith build.display_name "!" then true else false

/-- `_create_task_map(tasks)`: the dict `{task.display_name: task}`; embedded
as the association list of bindings in insertion order, read through
`dictGet` (last binding wins, as in a Python dict comprehension). -/
def _create_task_map (tasks : List Task) : List (String × Task) :=
  tasks.map (fun t => (t.display_name, t))

/-- `d.get(k)` on a dict built from an association list: the value of the
last binding of `k`, or `none`. -/
def dictGet {α : Type} (d : List (String × α)) (k : String) : Option α :=
  ((d.filter (fun p => p.1 == k)).getLast?).map (fun p => p.2)

/-- `_is_task_a_flip(task, tasks_prev, tasks_next)`: the flip predicate. -/
def _is_task_a_flip (task : Task) (tasks_prev tasks_next : List (String × Task)) :
    Bool :=
  if task.activated && !task.is_success then
    match dictGet tasks_prev task.display_name with
    | none => false
    | some task_prev =>
      if task_prev.status != task.status then false
      else
        match dictGet tasks_next task.display_name with
        | none => false
        | some task_next =>
          if task_next.status == task.status then false
          else true
  else false

/-- `_flips_for_build(build, version_prev, version_next)`: the display names
of the build's tasks satisfying the flip predicate, in task order.  The two
unguarded `build_by_variant` lookups propagate their failure. -/
def _flips_for_build (build : Build) (version_prev version_next : Version) :
    Option (List String) := do
  let build_prev ← version_prev.build_by_variant build.build_variant
  let build_next ← version_next.build_by_variant build.build_variant
  let tasks := build.get_tasks
  let tasks_prev := _create_task_map build_prev.get_tasks
  let tasks_next := _create_task_map build_next.get_tasks
  some ((tasks.filter (fun task => _is_task_a_flip task tasks_prev tasks_next)).map
    (fun task => task.display_name))

/-- `WorkItem(version, version_prev, version_next)`. -/
structure WorkItem where
  version : Version
  version_prev : Version
  version_next : Version
deriving Repr, DecidableEq

/-- `FlipList(revision, flipped_tasks)`. -/
structure FlipList where
  revision : String
  flipped_tasks : List (String × List String)
deriving Repr, DecidableEq

/-- A Python comprehension over a fallible body: evaluate in order, the first
failure aborts the whole comprehension. -/
def optMapList {α β : Type} (f : α → Option β) : List α → Option (List β)
  | [] => some []
  | x :: rest => do
    let y ← f x
    let ys ← optMapList f rest
    some (y :: ys)

/-- `_flips_for_version(work_item)`: analyze the builds the filter keeps
(`[build for build in version.get_builds() if _filter_builds(build)]`), build
the variant-to-flips dict, drop empty values, and package the result with the
revision. -/
def _flips_for_version (work_item : WorkItem) : Option FlipList := do
  let version := work_item.version
  let version_prev := work_item.version_prev
  let version_next := work_item.version_next
  let builds := version.get_builds.filter _filter_builds
  let flipped_tasks ← optMapList
    (fun b => (_flips_for_build b version_prev version_next).map
      (fun fl => (b.build_variant, fl)))
    builds
  some ⟨version.revision, _filter_empty_values flipped_tasks⟩

/-- `windowed_iter(it, 3)`: consecutive triples of the sequence, in order; a
sequence shorter than 3 yields nothing. -/
def windowed_iter3 {α : Type} : List α → List (α × α × α)
  | a :: b :: c :: rest => (a, b, c) :: windowed_iter3 (b :: c :: rest)
  | _ => []

/-- The scheduling loop of `find`: walk the windows in order, binding each as
`(version_prev, version, version_next)`; `break` at the first window whose
middle version has `create_time < look_back`, otherwise submit a `WorkItem`.
Returns the scheduled work items in submission order. -/
def scheduleWork (look_back : Int) :
    List (Version × Version × Version) → List WorkItem
  | [] => []
  | (version_prev, version, version_next) :: rest =>
    if version.create_time < look_back then []
    else ⟨version, version_prev, version_next⟩ :: scheduleWork look_back rest

/-- `find(project, look_back, evg_api, n_threads)`: the version stream the
external client yields for the project is the `versions` argument; results
are collected in scheduling order and merged into the revision-keyed dict,
dropping falsy (empty) flip mappings.  A failure in any scheduled work item
propagates. -/
def find (versions : List Version) (look_back : Int) :
    Option (List (String × List (String × List String))) := do
  let jobs := scheduleWork look_back (windowed_iter3 versions)
  let results ← optMapList _flips_for_version jobs
  some ((results.filter (fun r => pyTruthy r.flipped_tasks)).map
    (fun r => (r.revision, r.flipped_tasks)))

end EvgFlip

namespace EvgFlip

/-! Concrete scenario data used by the evaluation theorems and witnesses. -/

def tA_fail : Task := ⟨"A", true, "failed", false⟩

def tA_pass : Task := ⟨"A", true, "success", true⟩

def tB_fail : Task := ⟨"B", true, "failed", false⟩

def tB_pass : Task := ⟨"B", true, "success", true⟩

def linuxBuild (ts : List Task) : Build := ⟨"linux", "linux", ts⟩

def bangBuild (ts : List Task) : Build := ⟨"!windows-debug", "windows-debug", ts⟩

def vPrev1 : Version := ⟨"p1", 6, [linuxBuild [tA_fail], bangBuild [tA_fail]]⟩

def vMid1 : Version := ⟨"r1", 5, [linuxBuild [tA_fail], bangBuild [tA_fail]]⟩

def vNext1 : Version := ⟨"n1", 4, [linuxBuild [tA_pass], bangBuild [tA_pass]]⟩

def w1 : WorkItem := ⟨vMid1, vPrev1, vNext1⟩

def vPrev2 : Version := ⟨"prevrev", 6, [linuxBuild [tA_fail, tB_fail]]⟩

def vMid2 : Version := ⟨"abc123", 5, [linuxBuild [tA_fail, tB_pass]]⟩

def vNext2 : Version := ⟨"nextrev", 4, [linuxBuild [tA_pass, tB_pass]]⟩

/-! Helper lemmas. -/

lemma pyTruthy_list {α : Type} (l : List α) : pyTruthy l = !l.isEmpty := rfl

lemma pyTruthy_pyval (v : PyVal) : pyTruthy v = v.truthy := rfl

lemma optMapList_eq_none_of_mem {α β : Type} (f : α → Option β)
    (l : List α) (x : α) (hx : x ∈ l) (hfx : f x = none) :
    optMapList f l = none := by
  induction l with
  | nil => cases hx
  | cons a rest ih =>
    rcases List.mem_cons.mp hx with h | h
    · subst h
      simp [optMapList, hfx]
    · cases hfa : f a with
      | none => simp [optMapList, hfa]
      | some y => simp [optMapList, hfa, ih h]

lemma middle_mem_of_mem_windowed {α : Type} :
    ∀ (l : List α) (t : α × α × α), t ∈ windowed_iter3 l → t.2.1 ∈ l
  | a :: b :: c :: rest, t, h => by
    rw [windowed_iter3] at h
    rcases List.mem_cons.mp h with h1 | h2
    · subst h1
      exact List.mem_cons_of_mem a (List.mem_cons_self b (c :: rest))
    · exact List.mem_cons_of_mem a (middle_mem_of_mem_windowed (b :: c :: rest) t h2)
  | [], t, h => by simp [windowed_iter3] at h
  | [a], t, h => by simp [windowed_iter3] at h
  | [a, b], t, h => by simp [windowed_iter3] at h

lemma scheduleWork_stops (look_back : Int)
    (pre post : List (Version × Version × Version)) (t : Version × Version × Version)
    (hbad : t.2.1.create_time < look_back)
    (hpre : ∀ u ∈ pre, ¬ u.2.1.create_time < look_back) :
    scheduleWork look_back (pre ++ t :: post)
      = pre.map (fun u => ⟨u.2.1, u.1, u.2.2⟩) := by
  induction pre with
  | nil =>
    obtain ⟨p, v, n⟩ := t
    simpa [scheduleWork] using hbad
  | cons u us ih =>
    obtain ⟨p, v, n⟩ := u
    have hv : ¬ v.create_time < look_back := hpre (p, v, n) (List.mem_cons_self _ _)
    simp only [List.cons_append, scheduleWork, if_neg hv, List.map_cons]
    exact congrArg _ (ih (fun u hu => hpre u (List.mem_cons_of_mem _ hu)))

end EvgFlip

namespace EvgFlip

/-- Claim C1: the claim says a build whose display name starts with `!` is
never analyzed and every other build is.  The code does the opposite: the
build filter keeps exactly the builds whose display name starts with `!`, so
in a version holding a `linux` build and a `!windows-debug` build (each with
task `A` in the failed/failed/passed pattern), only `!windows-debug` is
analyzed, and it contributes the entry `windows-debug -> [A]` while `linux`
contributes nothing. -/
theorem c1_only_bang_builds_analyzed :
    vMid1.get_builds.filter _filter_builds = [bangBuild [tA_fail]]
    ∧ _flips_for_version w1 = some ⟨"r1", [("windows-debug", ["A"])]⟩ := by
  constructor
  · decide
  · decide

/-- Claim C2: the claimed end-to-end scenario (three-version window, variant
`linux`, task `A` failed/failed/passed, task `B` failed/passed/passed,
`look_back` below the middle version's create_time).  The claim expects
`find` to return `abc123 -> linux -> [A]`; because the build filter keeps
only `!`-prefixed builds, the `linux` build is dropped and `find` returns the
empty mapping. -/
theorem c2_end_to_end_returns_empty :
    find [vPrev2, vMid2, vNext2] 0 = some []
    ∧ find [vPrev2, vMid2, vNext2] 0 ≠ some [("abc123", [("linux", ["A"])])] := by
  constructor
  · decide
  · decide

/-- Claim C3: an activated, non-successful task whose previous-version match
exists with equal status and whose next-version match exists with a different
status is classified as a flip. -/
theorem c3_flip_when_prev_equal_and_next_different
    (task task_prev task_next : Task)
    (tasks_prev tasks_next : List (String × Task))
    (hact : task.activated = true) (hsucc : task.is_success = false)
    (hprev : dictGet tasks_prev task.display_name = some task_prev)
    (hpeq : task_prev.status = task.status)
    (hnext : dictGet tasks_next task.display_name = some task_next)
    (hneq : task_next.status ≠ task.status) :
    _is_task_a_flip task tasks_prev tasks_next = true := by
  unfold _is_task_a_flip
  rw [hact, hsucc, hprev, hnext]
  simp [hpeq, hneq]

theorem c3_witness :
    _is_task_a_flip tA_fail [("A", tA_fail)] [("A", tA_pass)] = true :=
  c3_flip_when_prev_equal_and_next_different tA_fail tA_fail tA_pass
    [("A", tA_fail)] [("A", tA_pass)]
    rfl rfl (by decide) rfl (by decide) (by decide)

/-- Claim C4: a task that is not activated, or whose is_success predicate
holds, is never a flip, whatever the previous and next task maps hold. -/
theorem c4_inactive_or_successful_never_flip
    (task : Task) (tasks_prev tasks_next : List (String × Task))
    (h : task.activated = false ∨ task.is_success = true) :
    _is_task_a_flip task tasks_prev tasks_next = false := by
  unfold _is_task_a_flip
  rcases h with h | h <;> simp [h]

theorem c4_witness :
    _is_task_a_flip ⟨"A", false, "failed", false⟩ [] [] = false :=
  c4_inactive_or_successful_never_flip ⟨"A", false, "failed", false⟩ [] []
    (Or.inl rfl)

/-- Claim C5: an activated, non-successful task with no previous-version
match, or a previous-version match of different status, is never a flip,
whatever the next task map holds. -/
theorem c5_missing_or_different_prev_never_flip
    (task : Task) (tasks_prev tasks_next : List (String × Task))
    (hact : task.activated = true) (hsucc : task.is_success = false)
    (hprev : dictGet tasks_prev task.display_name = none ∨
      ∃ task_prev, dictGet tasks_prev task.display_name = some task_prev ∧
        task_prev.status ≠ task.status) :
    _is_task_a_flip task tasks_prev tasks_next = false := by
  unfold _is_task_a_flip
  rw [hact, hsucc]
  rcases hprev with h | ⟨task_prev, h, hne⟩
  · rw [h]
    simp
  · rw [h]
    simp [hne]

theorem c5_witness :
    _is_task_a_flip tA_fail [] [("A", tA_pass)] = false :=
  c5_missing_or_different_prev_never_flip tA_fail [] [("A", tA_pass)]
    rfl rfl (Or.inl (by decide))

/-- Claim C6: an activated, non-successful task whose previous-version match
has equal status, but with no next-version match or a next-version match of
equal status, is never a flip. -/
theorem c6_missing_or_equal_next_never_flip
    (task task_prev : Task) (tasks_prev tasks_next : List (String × Task))
    (hact : task.activated = true) (hsucc : task.is_success = false)
    (hprev : dictGet tasks_prev task.display_name = some task_prev)
    (hpeq : task_prev.status = task.status)
    (hnext : dictGet tasks_next task.display_name = none ∨
      ∃ task_next, dictGet tasks_next task.display_name = some task_next ∧
        task_next.status = task.status) :
    _is_task_a_flip task tasks_prev tasks_next = false := by
  unfold _is_task_a_flip
  rw [hact, hsucc, hprev]
  rcases hnext with h | ⟨task_next, h, heq⟩
  · rw [h]
    simp [hpeq]
  · rw [h]
    simp [hpeq, heq]

theorem c6_witness :
    _is_task_a_flip tA_fail [("A", tA_fail)] [] = false :=
  c6_missing_or_equal_next_never_flip tA_fail tA_fail [("A", tA_fail)] []
    rfl rfl (by decide) rfl (Or.inl (by decide))

end EvgFlip

namespace EvgFlip

/-- Claim C7: scheduling stops at the first window whose middle version has
`create_time < look_back` — the work items actually scheduled are exactly
those of the windows before it — and when `look_back` exceeds every version's
create_time, zero work items are scheduled and `find` returns the empty
mapping. -/
theorem c7_scheduling_stops_at_cutoff (versions : List Version) (look_back : Int) :
    (∀ (pre post : List (Version × Version × Version)) (t : Version × Version × Version),
      windowed_iter3 versions = pre ++ t :: post →
      t.2.1.create_time < look_back →
      (∀ u ∈ pre, ¬ u.2.1.create_time < look_back) →
      scheduleWork look_back (windowed_iter3 versions)
        = pre.map (fun u => WorkItem.mk u.2.1 u.1 u.2.2))
    ∧ ((∀ v ∈ versions, v.create_time < look_back) →
      scheduleWork look_back (windowed_iter3 versions) = []
      ∧ find versions look_back = some []) := by
  constructor
  · intro pre post t hsplit hbad hpre
    rw [hsplit]
    exact scheduleWork_stops look_back pre post t hbad hpre
  · intro hall
    have h0 : scheduleWork look_back (windowed_iter3 versions) = [] := by
      cases hw : windowed_iter3 versions with
      | nil => rfl
      | cons t rest =>
        obtain ⟨p, v, n⟩ := t
        have hv : v ∈ versions := by
          have := middle_mem_of_mem_windowed versions (p, v, n)
            (hw ▸ List.mem_cons_self _ _)
          simpa using this
        simp [scheduleWork, hall v hv]
    refine ⟨h0, ?_⟩
    unfold find
    rw [h0]
    rfl

def vOld1 : Version := ⟨"o1", 1, []⟩

def vOld2 : Version := ⟨"o2", 2, []⟩

def vOld3 : Version := ⟨"o3", 3, []⟩

theorem c7_witness :
    (scheduleWork 10 (windowed_iter3 [vOld1, vOld2, vOld3])
      = List.map (fun u => WorkItem.mk u.2.1 u.1 u.2.2) ([] : List (Version × Version × Version)))
    ∧ find [vOld1, vOld2, vOld3] 10 = some [] :=
  ⟨(c7_scheduling_stops_at_cutoff [vOld1, vOld2, vOld3] 10).1
      [] [] (vOld1, vOld2, vOld3) rfl (by decide) (by simp),
   ((c7_scheduling_stops_at_cutoff [vOld1, vOld2, vOld3] 10).2 (by decide)).2⟩

end EvgFlip


namespace EvgFlip

/-- The body of `_flips_for_version`, with the pure bindings inlined. -/
lemma flips_for_version_def (w : WorkItem) :
    _flips_for_version w
      = (optMapList
          (fun b => (_flips_for_build b w.version_prev w.version_next).map
            (fun fl => (b.build_variant, fl)))
          (w.version.get_builds.filter _filter_builds)).bind
        (fun ft => some ⟨w.version.revision, _filter_empty_values ft⟩) := rfl

/-- The body of `find`, with the pure bindings inlined. -/
lemma find_def (versions : List Version) (look_back : Int) :
    find versions look_back
      = (optMapList _flips_for_version
          (scheduleWork look_back (windowed_iter3 versions))).bind
        (fun results =>
          some ((results.filter (fun r => pyTruthy r.flipped_tasks)).map
            (fun r => (r.revision, r.flipped_tasks)))) := rfl

/-- Claim C8: output invariants — a FlipList produced for a version maps no
variant to an empty task list, and the mapping returned by `find` maps no
revision to an empty variant mapping. -/
theorem c8_no_empty_entries :
    (∀ (w : WorkItem) (fl : FlipList), _flips_for_version w = some fl →
      ∀ p ∈ fl.flipped_tasks, p.2 ≠ ([] : List String))
    ∧ (∀ (versions : List Version) (look_back : Int)
        (res : List (String × List (String × List String))),
      find versions look_back = some res →
      ∀ q ∈ res, q.2 ≠ ([] : List (String × List String))) := by
  constructor
  · intro w fl h p hp
    rw [flips_for_version_def] at h
    rcases Option.bind_eq_some.mp h with ⟨ft, hft, hfl⟩
    have hfl2 : fl = ⟨w.version.revision, _filter_empty_values ft⟩ :=
      (Option.some.inj hfl).symm
    have hp2 : p ∈ _filter_empty_values ft := by
      rw [hfl2] at hp
      exact hp
    unfold _filter_empty_values at hp2
    have htr := (List.mem_filter.mp hp2).2
    rw [pyTruthy_list] at htr
    simpa using htr
  · intro versions look_back res h q hq
    rw [find_def] at h
    rcases Option.bind_eq_some.mp h with ⟨results, hres, hsome⟩
    have hres2 : res = (results.filter (fun r => pyTruthy r.flipped_tasks)).map
        (fun r => (r.revision, r.flipped_tasks)) := (Option.some.inj hsome).symm
    rw [hres2] at hq
    rcases List.mem_map.mp hq with ⟨r, hr, hrq⟩
    have htr := (List.mem_filter.mp hr).2
    rw [pyTruthy_list] at htr
    rw [← hrq]
    simpa using htr

theorem c8_witness : (("windows-debug", ["A"]) : String × List String).2 ≠ [] :=
  c8_no_empty_entries.1 w1 ⟨"r1", [("windows-debug", ["A"])]⟩ (by decide)
    ("windows-debug", ["A"]) (by decide)

/-- Claim C9: `_filter_empty_values` keeps exactly the items whose value is
truthy, each bound to the same value, and a value is falsy precisely when it
is an empty string, an empty sequence, an empty mapping or an empty set. -/
theorem c9_filter_empty_values_spec (d : List (String × PyVal)) (k : String)
    (v : PyVal) :
    ((k, v) ∈ _filter_empty_values d ↔ (k, v) ∈ d ∧ v.truthy = true)
    ∧ (v.truthy = false ↔
      v = PyVal.str "" ∨ v = PyVal.list [] ∨ v = PyVal.dict []
      ∨ v = PyVal.set []) := by
  constructor
  · unfold _filter_empty_values
    rw [List.mem_filter]
    rw [pyTruthy_pyval]
  · cases v with
    | str s =>
      simp [PyVal.truthy, String.ext_iff]
    | list xs =>
      simp [PyVal.truthy, List.isEmpty_iff]
    | dict xs =>
      simp [PyVal.truthy, List.isEmpty_iff]
    | set xs =>
      simp [PyVal.truthy, List.isEmpty_iff]

theorem c9_witness :
    ((("a", PyVal.str "x") ∈
        _filter_empty_values [("a", PyVal.str "x"), ("b", PyVal.dict [])]
      ↔ ("a", PyVal.str "x") ∈ [("a", PyVal.str "x"), ("b", PyVal.dict [])]
        ∧ (PyVal.str "x").truthy = true)
    ∧ ((PyVal.str "x").truthy = false ↔
      PyVal.str "x" = PyVal.str "" ∨ PyVal.str "x" = PyVal.list []
      ∨ PyVal.str "x" = PyVal.dict [] ∨ PyVal.str "x" = PyVal.set [])) :=
  c9_filter_empty_values_spec [("a", PyVal.str "x"), ("b", PyVal.dict [])] "a"
    (PyVal.str "x")

/-- Claim C10: when the previous or next version has no build of the current
build's variant, the unguarded lookup's failure makes `_flips_for_build`
fail, the failure propagates through `_flips_for_version`, and a scheduled
work item failing that way aborts the whole `find` run. -/
theorem c10_missing_build_aborts_find :
    (∀ (build : Build) (version_prev version_next : Version),
      (version_prev.build_by_variant build.build_variant = none ∨
        version_next.build_by_variant build.build_variant = none) →
      _flips_for_build build version_prev version_next = none)
    ∧ (∀ (w : WorkItem) (build : Build),
      build ∈ w.version.get_builds.filter _filter_builds →
      _flips_for_build build w.version_prev w.version_next = none →
      _flips_for_version w = none)
    ∧ (∀ (versions : List Version) (look_back : Int) (w : WorkItem),
      w ∈ scheduleWork look_back (windowed_iter3 versions) →
      _flips_for_version w = none →
      find versions look_back = none) := by
  refine ⟨?_, ?_, ?_⟩
  · intro build version_prev version_next h
    unfold _flips_for_build
    rcases h with h | h
    · rw [h]
      rfl
    · cases hp : version_prev.build_by_variant build.build_variant with
      | none => rfl
      | some bp =>
        rw [h]
        rfl
  · intro w build hb hnone
    have hfb : (_flips_for_build build w.version_prev w.version_next).map
        (fun fl => (build.build_variant, fl)) = none := by
      rw [hnone]
      rfl
    have hopt := optMapList_eq_none_of_mem
      (fun b => (_flips_for_build b w.version_prev w.version_next).map
        (fun fl => (b.build_variant, fl)))
      (w.version.get_builds.filter _filter_builds) build hb hfb
    rw [flips_for_version_def, hopt]
    rfl
  · intro versions look_back w hw hnone
    have hopt := optMapList_eq_none_of_mem _flips_for_version
      (scheduleWork look_back (windowed_iter3 versions)) w hw hnone
    rw [find_def, hopt]
    rfl

def buildX : Build := ⟨"!x", "xvar", [tA_fail]⟩

def vMidX : Version := ⟨"rx", 5, [buildX]⟩

def vEmptyA : Version := ⟨"ra", 6, []⟩

def vEmptyB : Version := ⟨"rb", 4, []⟩

def wX : WorkItem := ⟨vMidX, vEmptyA, vEmptyB⟩

theorem c10_witness : find [vEmptyA, vMidX, vEmptyB] 0 = none :=
  c10_missing_build_aborts_find.2.2 [vEmptyA, vMidX, vEmptyB] 0 wX (by decide)
    (c10_missing_build_aborts_find.2.1 wX buildX (by decide)
      (c10_missing_build_aborts_find.1 buildX vEmptyA vEmptyB (Or.inl (by decide))))

end EvgFlip
